import Mathlib

/-!
Shallow embedding of `src/parser/src/analyze/expr.rs` (saltwater's expression
semantic-analysis pass) and proofs about it.

The data model (`Type`, `Expr`, `ExprType`, `Literal`, diagnostics) and every
operation are translated from the Rust source.  The Rust `Type` is named
`CType` here because `Type` is a Lean keyword; constructor and method names
otherwise follow the source.  Helpers that the source file calls but that are
defined elsewhere in the repository (`can_represent`, `is_integral`,
`is_arithmetic`, `sizeof`, ...) are modelled from the spec and say so in their
doc comments.  Rust panics (`sign()` on a non-integral type, `unreachable!()`)
are modelled by `Option`: a `none` result marks a run that would panic.
Source locations carry no information any theorem depends on; they are
modelled as spans.  Diagnostic locations are elided: the error list records
the `SemanticError` kinds in the order they are reported.
-/

/-- Type qualifiers.  Only `c_const` is inspected by this pass. -/
structure Qualifiers where
  c_const : Bool
deriving DecidableEq, Repr

/-- Rust `Qualifiers::default()`: no qualifiers. -/
def Qualifiers.default : Qualifiers := ⟨false⟩

/-- Rust `Qualifiers::NONE`. -/
def Qualifiers.NONE : Qualifiers := ⟨false⟩

/-- Array size kind: `Fixed(n)` or `Unbounded`. -/
inductive ArrayType where
  | fixed (n : Nat)
  | unbounded
deriving DecidableEq, Repr

/-- The C type model (Rust `Type`).  Integer families carry a signedness
flag.  A function signature is abstracted to an opaque identifier (the pass
only ever compares function types for equality and wraps them in pointers);
a struct/union tag carries the list of `const` flags of its members, which is
all `modifiable_lval` inspects; an enum carries its tag and its
`(name, value)` members as in the source. -/
inductive CType where
  | void
  | bool
  | char (signed : Bool)
  | short (signed : Bool)
  | int (signed : Bool)
  | long (signed : Bool)
  | float
  | double
  | pointer (pointee : CType) (quals : Qualifiers)
  | array (elem : CType) (size : ArrayType)
  | function (sig : Nat)
  | struct (tag : Nat) (memberConsts : List Bool)
  | union (tag : Nat) (memberConsts : List Bool)
  | enum (tag : Nat) (members : List (String × Int))
  | error
deriving DecidableEq, Repr

/-- Source `is_void_pointer`: a pointer whose pointee is `Void`. -/
def CType.is_void_pointer : CType → Bool
  | .pointer t _ => t == .void
  | _ => false

/-- Source `is_char_pointer`: a pointer whose pointee is `Char(_)`. -/
def CType.is_char_pointer : CType → Bool
  | .pointer (.char _) _ => true
  | _ => false

/-- Modelled from the spec: `is_integral` — the integer families
`Bool`/`Char`/`Short`/`Int`/`Long` (the spec's `is_scalar` is "arithmetic or
pointer or enum", which places enum outside the arithmetic/integral types). -/
def CType.is_integral : CType → Bool
  | .bool | .char _ | .short _ | .int _ | .long _ => true
  | _ => false

/-- Modelled from the spec: `is_floating` — `Float` or `Double`. -/
def CType.is_floating : CType → Bool
  | .float | .double => true
  | _ => false

/-- Modelled from the spec: `is_arithmetic` — integral or floating. -/
def CType.is_arithmetic (t : CType) : Bool :=
  t.is_integral || t.is_floating

/-- Modelled from the spec: `is_pointer`. -/
def CType.is_pointer : CType → Bool
  | .pointer _ _ => true
  | _ => false

/-- Modelled from the spec: `is_bool` (used by `implicit_cast`). -/
def CType.is_bool : CType → Bool
  | .bool => true
  | _ => false

/-- Modelled from the spec: `is_function` (used by
`is_pointer_to_complete_object`). -/
def CType.is_function : CType → Bool
  | .function _ => true
  | _ => false

/-- Source `is_struct`: `Struct` or `Union`. -/
def CType.is_struct : CType → Bool
  | .struct _ _ | .union _ _ => true
  | _ => false

/-- Source `is_complete`: false for `Void`, `Function`, and unbounded arrays. -/
def CType.is_complete : CType → Bool
  | .void | .function _ | .array _ .unbounded => false
  | _ => true

/-- Source `is_pointer_to_complete_object`: a pointer to a complete
non-function type, or any array type (C11 6.5.6). -/
def CType.is_pointer_to_complete_object : CType → Bool
  | .pointer ctype _ => ctype.is_complete && !ctype.is_function
  | .array _ _ => true
  | _ => false

/-- Source `sign`: the signedness of an integral type.  Calling it on a
floating or derived type panics in Rust; that panic is `none` here. -/
def CType.sign : CType → Option Bool
  | .char s | .short s | .int s | .long s => some s
  | .bool => some false
  | .enum _ _ => some true
  | _ => none

/-- Rust `std::usize::MAX`, the rank given to non-integral types. -/
def usizeMax : Nat := 2 ^ 64 - 1

/-- Source `rank`: integer conversion rank (C11 6.3.1.1). -/
def CType.rank : CType → Nat
  | .bool => 0
  | .char _ => 1
  | .short _ => 2
  | .int _ => 3
  | .long _ => 4
  | _ => usizeMax

/-- Modelled from the spec: minimum representable value of an integral type
(`can_represent` is "value-range containment").  The `arch` module is not in
the shown source; the usual 64-bit C sizes are used: char 8 bits, short 16,
int 32, long 64, and `Bool` holds 0 or 1. -/
def CType.minValue : CType → Int
  | .char true => -(2 ^ 7)
  | .short true => -(2 ^ 15)
  | .int true => -(2 ^ 31)
  | .long true => -(2 ^ 63)
  | _ => 0

/-- Modelled from the spec: maximum representable value of an integral type
(companion to `CType.minValue`). -/
def CType.maxValue : CType → Int
  | .bool => 1
  | .char true => 2 ^ 7 - 1
  | .char false => 2 ^ 8 - 1
  | .short true => 2 ^ 15 - 1
  | .short false => 2 ^ 16 - 1
  | .int true => 2 ^ 31 - 1
  | .int false => 2 ^ 32 - 1
  | .long true => 2 ^ 63 - 1
  | .long false => 2 ^ 64 - 1
  | _ => 0

/-- Modelled from the spec: `can_represent(other)` — value-range containment
between integral types, used for the promotion tie-breaks. -/
def CType.can_represent (self other : CType) : Bool :=
  self.is_integral && other.is_integral &&
    (self.minValue ≤ other.minValue && other.maxValue ≤ self.maxValue)

/-- Source `integer_promote`: a type of rank at most `Int`'s becomes signed
`Int` if signed `Int` can represent all its values, else unsigned `Int`;
higher ranks are unchanged. -/
def CType.integer_promote (self : CType) : CType :=
  if self.rank ≤ (CType.int true).rank then
    if (CType.int true).can_represent self then .int true else .int false
  else self

/-- Source `Type::binary_promote`: the usual arithmetic conversion.  The
`sign()` calls panic on non-integral operands; that panic is `none`. -/
def CType.binary_promote (left right : CType) : Option CType :=
  if left == .double || right == .double then some .double
  else if left == .float || right == .float then some .float
  else
    let left := left.integer_promote
    let right := right.integer_promote
    match left.sign, right.sign with
    | some s1, some s2 =>
      if s1 = s2 then
        some (if left.rank ≥ right.rank then left else right)
      else
        let su := if s1 then (left, right) else (right, left)
        some (if su.1.can_represent su.2 then su.1 else su.2)
    | _, _ => none

/-- Modelled from the spec: `sizeof` — the size in bytes of a complete type
(the spec: a complete type is one "whose size is known").  `Void`, function
types, unbounded arrays have no size; struct/union sizes depend on member
layout that is not part of the shown source, so they are undetermined here. -/
def CType.sizeof : CType → Except Unit Nat
  | .bool => .ok 1
  | .char _ => .ok 1
  | .short _ => .ok 2
  | .int _ => .ok 4
  | .long _ => .ok 8
  | .float => .ok 4
  | .double => .ok 8
  | .pointer _ _ => .ok 8
  | .enum _ _ => .ok 4
  | .array t (.fixed n) =>
    match t.sizeof with
    | .ok s => .ok (s * n)
    | .error e => .error e
  | _ => .error ()

/-- Modelled from the spec: a source span.  `merge` spans from the start of
the first location to the end of the second, as the source's
`location.merge` does. -/
structure Location where
  left : Nat
  right : Nat
deriving DecidableEq, Repr

/-- Source `Location::merge`. -/
def Location.merge (a b : Location) : Location := ⟨a.left, b.right⟩

/-- Storage classes inspected by this pass (the source only tests for
`Typedef` and constructs `Register`; the remaining classes play no role
here). -/
inductive StorageClass where
  | auto
  | register
  | static
  | typedef
deriving DecidableEq, Repr

/-- Symbol metadata (`{ id, ctype, qualifiers, storage_class }`).  The
source's `MetadataRef` is an interned handle resolved by `.get()`; it is
modelled as the metadata itself, with `InternedStr` modelled as `String`. -/
structure Metadata where
  id : String
  ctype : CType
  qualifiers : Qualifiers
  storage_class : StorageClass
deriving DecidableEq, Repr

/-- Literal tokens.  The payload of `Float` is never inspected by this pass
(in particular `is_null` only matches integer and char zeros), so it is kept
as an opaque bit pattern. -/
inductive Literal where
  | char (c : Nat)
  | int (i : Int)
  | unsignedInt (n : Nat)
  | float (bits : Nat)
  | str (s : List Nat)
deriving DecidableEq, Repr

/-- Comparison tokens. -/
inductive ComparisonToken where
  | less
  | greater
  | lessEqual
  | greaterEqual
  | equalEqual
  | notEqual
deriving DecidableEq, Repr

/-- Binary operators of the typed IR. -/
inductive BinaryOp where
  | add
  | sub
  | mul
  | div
  | mod
  | shl
  | shr
  | bitwiseAnd
  | bitwiseOr
  | xor
  | assign
  | compare (token : ComparisonToken)
deriving DecidableEq, Repr

/-- Assignment tokens (`=`, `|=`, `&=`, `^=`, `<<=`, `>>=`, `*=`, `/=`,
`%=`, `+=`, `-=`). -/
inductive AssignmentToken where
  | equal
  | orEqual
  | andEqual
  | xorEqual
  | shlEqual
  | shrEqual
  | mulEqual
  | divEqual
  | modEqual
  | addEqual
  | subEqual
deriving DecidableEq, Repr

/-- Semantic diagnostics.  The multiplicative-operator mismatches are
free-form formatted strings in the source; they are modelled by the two
dedicated constructors `modNonIntegral` and `mulNonArithmetic` carrying the
same data the format string embeds. -/
inductive SemanticError where
  | undeclaredVar (name : String)
  | typedefInExpressionContext
  | nonIntegralExpr (t : CType)
  | invalidRelationalType (token : ComparisonToken) (l r : CType)
  | invalidAdd (op : BinaryOp) (l r : CType)
  | invalidCast (src tgt : CType)
  | pointerAddUnknownSize (t : CType)
  | notAssignable (reason : String)
  | modNonIntegral (l r : CType)
  | mulNonArithmetic (op : BinaryOp) (l r : CType)
deriving DecidableEq, Repr

/-- The scope collaborator: a stack of frames, innermost first. -/
abbrev Scope := List (List (String × Metadata))

/-- Scope `lookup`: innermost binding wins. -/
def Scope.get (s : Scope) (name : String) : Option Metadata :=
  match s with
  | [] => none
  | frame :: rest =>
    match frame.lookup name with
    | some m => some m
    | none => Scope.get rest name

/-- Scope `enter_scope`: push an empty frame. -/
def Scope.enter (s : Scope) : Scope := [] :: s

/-- Scope `declare`/`insert`: bind a name in the innermost frame. -/
def Scope.insert (s : Scope) (name : String) (m : Metadata) : Scope :=
  match s with
  | [] => [[(name, m)]]
  | frame :: rest => ((name, m) :: frame) :: rest

/-- Scope `exit_scope`: pop the innermost frame. -/
def Scope.exit (s : Scope) : Scope := s.tail

mutual
/-- The typed IR node (Rust `Expr`): payload, resolved type, lvalue flag,
location. -/
inductive Expr where
  | mk (expr : ExprType) (ctype : CType) (lval : Bool) (location : Location)

/-- The typed IR payload (Rust `ExprType`). -/
inductive ExprType where
  | literal (value : Literal)
  | id (symbol : Metadata)
  | binary (op : BinaryOp) (left : Expr) (right : Expr)
  | cast (inner : Expr)
  | deref (inner : Expr)
end

/-- Field accessor: `expr`. -/
def Expr.expr : Expr → ExprType
  | .mk e _ _ _ => e

/-- Field accessor: `ctype`. -/
def Expr.ctype : Expr → CType
  | .mk _ c _ _ => c

/-- Field accessor: `lval`. -/
def Expr.lval : Expr → Bool
  | .mk _ _ l _ => l

/-- Field accessor: `location`. -/
def Expr.location : Expr → Location
  | .mk _ _ _ l => l

/-- Source free function `literal`: assign a type to a literal token. -/
def literal (lit : Literal) (location : Location) : Expr :=
  let ctype : CType :=
    match lit with
    | .char _ => .char true
    | .int _ => .long true
    | .unsignedInt _ => .long false
    | .float _ => .double
    | .str s => .array (.char true) (.fixed s.length)
  .mk (.literal lit) ctype false location

/-- Source `Expr::zero`: the signed-`Int` zero placeholder used for error
recovery. -/
def Expr.zero (location : Location) : Expr :=
  .mk (.literal (.int 0)) (.int true) false location

/-- Source `Expr::is_null`: an integer/unsigned/char literal zero. -/
def Expr.is_null (e : Expr) : Bool :=
  match e.expr with
  | .literal (.int 0) => true
  | .literal (.unsignedInt 0) => true
  | .literal (.char 0) => true
  | _ => false

/-- Source `Expr::id`: an lvalue reference to a symbol, typed with the
symbol's declared type. -/
def Expr.id (symbol : Metadata) (location : Location) : Expr :=
  .mk (.id symbol) symbol.ctype true location

/-- Source `Expr::rval` (the spec's `decay`): arrays decay to pointers,
functions to `const` pointers to themselves, struct/union lvalues are
relabelled rvalues, any other lvalue is wrapped in a `Deref` node, and
non-lvalues pass through unchanged. -/
def Expr.rval (e : Expr) : Expr :=
  match e.ctype with
  | .array elem _ => .mk e.expr (.pointer elem Qualifiers.default) false e.location
  | .function sig =>
    .mk e.expr (.pointer (.function sig) ⟨true⟩) false e.location
  | .struct _ _ | .union _ _ =>
    if e.lval then .mk e.expr e.ctype false e.location else e
  | _ =>
    if e.lval then .mk (.deref e) e.ctype false e.location else e

/-- Source `Expr::implicit_cast`: no-op on matching types; insert a `Cast`
node for arithmetic-to-arithmetic, null-to-pointer, pointer-to-`Bool`,
pointer-to-void-pointer and pointer-to-char-pointer conversions; retype in
place when the target is a pointer and the source is null or a void/char
pointer; swallow `Error` sources; otherwise report `InvalidCast` and return
the expression unmodified. -/
def Expr.implicit_cast (e : Expr) (ctype : CType) (eh : List SemanticError) :
    Expr × List SemanticError :=
  if e.ctype = ctype then (e, eh)
  else if e.ctype.is_arithmetic && ctype.is_arithmetic
      || e.is_null && ctype.is_pointer
      || e.ctype.is_pointer && ctype.is_bool
      || e.ctype.is_pointer && ctype.is_void_pointer
      || e.ctype.is_pointer && ctype.is_char_pointer then
    (.mk (.cast e) ctype false e.location, eh)
  else if ctype.is_pointer
      && (e.is_null || e.ctype.is_void_pointer || e.ctype.is_char_pointer) then
    (.mk e.expr ctype e.lval e.location, eh)
  else if e.ctype = .error then (e, eh)
  else (e, eh ++ [.invalidCast e.ctype ctype])

/-- Source `Expr::binary_promote`: decay both operands, compute the common
type with `Type::binary_promote`, and cast each side to it.  `none` marks
the `sign()` panic inside `Type::binary_promote`. -/
def Expr.binary_promote (left right : Expr) (eh : List SemanticError) :
    Option (Expr × Expr × List SemanticError) :=
  let left := left.rval
  let right := right.rval
  match CType.binary_promote left.ctype right.ctype with
  | none => none
  | some ctype =>
    let p1 := left.implicit_cast ctype eh
    let p2 := right.implicit_cast ctype p1.2
    some (p1.1, p2.1, p2.2)

/-- Source `Expr::modifiable_lval` (C11 6.3.2.1): assignable only if an
lvalue of complete, non-array type, not a `const` variable, and not a
struct/union with a `const` member.  The source formats descriptive reason
strings embedding the type; the fixed prefixes are kept here. -/
def Expr.modifiable_lval (e : Expr) : Except SemanticError Unit :=
  if !e.lval then .error (.notAssignable "rvalue")
  else if !e.ctype.is_complete then
    .error (.notAssignable "expression with incomplete type")
  else
    let constId : Bool :=
      match e.expr with
      | .id sym => sym.qualifiers.c_const
      | _ => false
    if constId then .error (.notAssignable "variable with const qualifier")
    else
      match e.ctype with
      | .array _ _ => .error (.notAssignable "array")
      | .struct _ members | .union _ members =>
        if members.any (fun x => x) then
          .error (.notAssignable "struct or union with const qualified member")
        else .ok ()
      | _ => .ok ()

mutual
/-- Count the occurrences of identifier nodes named `name` in a typed tree
(used to state the single-evaluation property of compound assignment). -/
def Expr.countId (name : String) : Expr → Nat
  | .mk ex _ _ _ => ExprType.countId name ex

/-- Companion of `Expr.countId` on payloads. -/
def ExprType.countId (name : String) : ExprType → Nat
  | .literal _ => 0
  | .id m => if m.id = name then 1 else 0
  | .binary _ l r => Expr.countId name l + Expr.countId name r
  | .cast i => Expr.countId name i
  | .deref i => Expr.countId name i
end

/-- The analyzer state this pass touches: the scope collaborator and the
append-only diagnostics channel. -/
structure Analyzer where
  scope : Scope
  errors : List SemanticError
deriving Repr

/-- Source `self.err(...)`: report a diagnostic.  Locations are elided. -/
def Analyzer.err (st : Analyzer) (e : SemanticError) (_location : Location) :
    Analyzer :=
  { st with errors := st.errors ++ [e] }

/-- Source `parse_integer_op` (shifts and bitwise and/or/xor): both operands
must be integral, then both are binary-promoted; the result takes the
promoted right operand's type and is never an lvalue. -/
def Analyzer.parse_integer_op (st : Analyzer) (left right : Expr)
    (op : BinaryOp) : Option (Expr × Analyzer) :=
  let non_scalar : Option CType :=
    if !left.ctype.is_integral then some left.ctype
    else if !right.ctype.is_integral then some right.ctype
    else none
  let location := left.location.merge right.location
  let st :=
    match non_scalar with
    | some ctype => st.err (.nonIntegralExpr ctype) location
    | none => st
  match Expr.binary_promote left right st.errors with
  | none => none
  | some (promoted_expr, next, errs) =>
    some (.mk (.binary op promoted_expr next) next.ctype false location,
      { st with errors := errs })

/-- Source `parse_id`: resolve an identifier.  Undeclared names and typedef
names report a diagnostic and substitute the zero placeholder; an enumerator
member resolves to an integer literal of the enum's type; anything else is an
lvalue reference to the symbol. -/
def Analyzer.parse_id (st : Analyzer) (name : String) (location : Location) :
    Expr × Analyzer :=
  let pretend_zero := Expr.zero location
  match st.scope.get name with
  | none => (pretend_zero, st.err (.undeclaredVar name) location)
  | some symbol =>
    if symbol.storage_class = .typedef then
      (pretend_zero, st.err .typedefInExpressionContext location)
    else
      let enumerator : Option Expr :=
        match symbol.ctype with
        | .enum ident members =>
          match members.findSome?
              (fun mv => if name = mv.1 then some mv.2 else none) with
          | some e =>
            some (.mk (.literal (.int e)) (.enum ident members) false location)
          | none => none
        | _ => none
      match enumerator with
      | some e => (e, st)
      | none => (Expr.id symbol location, st)

/-- The pointer-compatibility condition checked by `relational_expr` for
non-arithmetic operands, exactly as written inline in the source. -/
def relationalCondition (token : ComparisonToken) (left_expr right_expr : Expr) :
    Bool :=
  (left_expr.ctype.is_pointer && left_expr.ctype == right_expr.ctype)
  || ((token == .equalEqual || token == .notEqual)
      && ((left_expr.ctype.is_pointer && right_expr.ctype.is_void_pointer)
        || (left_expr.ctype.is_void_pointer && right_expr.ctype.is_pointer)
        || (left_expr.is_null && right_expr.ctype.is_pointer)
        || (left_expr.ctype.is_pointer && right_expr.is_null)))

/-- Source `relational_expr` on already-lowered operands (the recursive
`parse_expr` calls on the two children are elided: operands arrive typed).
Arithmetic operands are binary-promoted; otherwise both are decayed and the
pointer-compatibility condition is checked, reporting
`InvalidRelationalType` on violation.  The result is always `Bool` and never
an lvalue.  The source asserts that neither final operand is an lvalue; that
assertion is proved below rather than modelled. -/
def Analyzer.relational_expr (st : Analyzer) (left right : Expr)
    (token : ComparisonToken) : Option (Expr × Analyzer) :=
  let location := left.location.merge right.location
  if left.ctype.is_arithmetic && right.ctype.is_arithmetic then
    match Expr.binary_promote left right st.errors with
    | none => none
    | some (l, r, errs) =>
      some (.mk (.binary (.compare token) l r) .bool false location,
        { st with errors := errs })
  else
    let left_expr := left.rval
    let right_expr := right.rval
    let st :=
      if !relationalCondition token left_expr right_expr then
        st.err
          (.invalidRelationalType token left_expr.ctype right_expr.ctype)
          location
      else st
    some (.mk (.binary (.compare token) left_expr right_expr) .bool false
        location, st)

/-- Source `mul` (`*`, `/`, `%`): `%` requires integral operands, `*` and
`/` arithmetic ones; either way the operands are then binary-promoted and
the result takes the promoted left operand's type. -/
def Analyzer.mul (st : Analyzer) (left right : Expr) (op : BinaryOp) :
    Option (Expr × Analyzer) :=
  let location := left.location.merge right.location
  let st :=
    if op == .mod && !(left.ctype.is_integral && right.ctype.is_integral) then
      st.err (.modNonIntegral left.ctype right.ctype) location
    else if !(left.ctype.is_arithmetic && right.ctype.is_arithmetic) then
      st.err (.mulNonArithmetic op left.ctype right.ctype) location
    else st
  match Expr.binary_promote left right st.errors with
  | none => none
  | some (l, r, errs) =>
    some (.mk (.binary op l r) l.ctype false location,
      { st with errors := errs })

/-- Source `pointer_arithmetic`: scale the integral index by the pointee
size, in the base pointer's own representation type, and add it to the
base.  An undetermined pointee size reports `PointerAddUnknownSize` and
substitutes size 1. -/
def Analyzer.pointer_arithmetic (st : Analyzer) (base index : Expr)
    (pointee : CType) (location : Location) : Expr × Analyzer :=
  let offset := (Expr.mk (.cast index) base.ctype false index.location).rval
  let (size, st) :=
    match pointee.sizeof with
    | .ok s => (s, st)
    | .error _ => (1, st.err (.pointerAddUnknownSize base.ctype) location)
  let size_literal := literal (.unsignedInt size) offset.location
  let size_cast :=
    Expr.mk (.cast size_literal) offset.ctype false offset.location
  let offset :=
    Expr.mk (.binary .mul size_cast offset) offset.ctype false offset.location
  (Expr.mk (.binary .add base offset) base.ctype false location, st)

/-- The guard of the first two match arms of `add`: when `l` is a pointer or
array type and `i` is integral and the pointee is complete, return the
pointee (the operation routes to pointer arithmetic). -/
def pointerOperandCase (l i : CType) : Option CType :=
  match l with
  | .pointer pointee _ =>
    if i.is_integral && pointee.is_complete then some pointee else none
  | .array elem _ =>
    if i.is_integral && elem.is_complete then some elem else none
  | _ => none

/-- Source `add` (`+`, `-`): pointer/array plus-or-minus integral (and, for
`+` only, integral plus pointer/array) routes to pointer arithmetic;
arithmetic pairs are binary-promoted; subtraction of identical
pointer-to-complete-object types yields that type and keeps `lval = true`;
anything else reports `InvalidAdd`. -/
def Analyzer.add (st : Analyzer) (left right : Expr) (op : BinaryOp) :
    Option (Expr × Analyzer) :=
  let is_add := op == BinaryOp.add
  let location := left.location.merge right.location
  match pointerOperandCase left.ctype right.ctype with
  | some pointee =>
    some (st.pointer_arithmetic left.rval right.rval pointee location)
  | none =>
  match (if is_add then pointerOperandCase right.ctype left.ctype else none) with
  | some pointee =>
    some (st.pointer_arithmetic right.rval left.rval pointee location)
  | none =>
  if left.ctype.is_arithmetic && right.ctype.is_arithmetic then
    match Expr.binary_promote left right st.errors with
    | none => none
    | some (l, r, errs) =>
      some (.mk (.binary op l r) l.ctype false location,
        { st with errors := errs })
  else if !is_add && left.ctype.is_pointer_to_complete_object
      && left.ctype == right.ctype then
    some (.mk (.binary op left right) left.ctype true location, st)
  else
    let st := st.err (.invalidAdd op left.ctype right.ctype) location
    some (.mk (.binary op left right) left.ctype false location, st)

/-- Source `desugar_op`: dispatch a compound-assignment token to the
underlying binary-operator rule.  The `Equal` arm is `unreachable!()` in the
source; that is `none` here. -/
def Analyzer.desugar_op (st : Analyzer) (left right : Expr)
    (token : AssignmentToken) : Option (Expr × Analyzer) :=
  match token with
  | .equal => none
  | .orEqual => st.parse_integer_op left right .bitwiseOr
  | .andEqual => st.parse_integer_op left right .bitwiseAnd
  | .xorEqual => st.parse_integer_op left right .xor
  | .shlEqual => st.parse_integer_op left right .shl
  | .shrEqual => st.parse_integer_op left right .shr
  | .mulEqual => st.mul left right .mul
  | .divEqual => st.mul left right .div
  | .modEqual => st.mul left right .mod
  | .addEqual => st.add left right .add
  | .subEqual => st.add left right .sub

/-- Source `assignment_expr` on already-lowered operands (the recursive
`parse_expr` calls on the two children are elided: operands arrive typed).
Simple assignment casts the right side to the left's type; compound
assignment declares a hidden `tmp` in a transient scope, builds the
lvalue-marked sub-expression `tmp = lval`, applies the underlying operator
to a clone of it and the right side, and wraps the result as another
assignment to the same sub-expression. -/
def Analyzer.assignment_expr (st : Analyzer) (lval rval : Expr)
    (token : AssignmentToken) (location : Location) :
    Option (Expr × Analyzer) :=
  let st :=
    match lval.modifiable_lval with
    | .error e => st.err e location
    | .ok _ => st
  match token with
  | .equal =>
    let (rval, errs) :=
      if rval.ctype ≠ lval.ctype then rval.implicit_cast lval.ctype st.errors
      else (rval, st.errors)
    some (.mk (.binary .assign lval rval) lval.ctype false location,
      { st with errors := errs })
  | _ =>
    let st := { st with scope := st.scope.enter }
    let tmp_name := "tmp"
    let meta : Metadata :=
      { id := tmp_name, ctype := lval.ctype, qualifiers := Qualifiers.NONE,
        storage_class := .register }
    let ctype := meta.ctype
    let meta_ref := meta
    let st := { st with scope := st.scope.insert tmp_name meta_ref }
    let st := { st with scope := st.scope.exit }
    let assign :=
      ExprType.binary .assign
        (.mk (.id meta_ref) ctype false lval.location) lval
    let tmp_assign_expr := Expr.mk assign ctype true location
    match st.desugar_op tmp_assign_expr rval token with
    | none => none
    | some (new_val, st) =>
      some (.mk (.binary .assign tmp_assign_expr new_val) ctype false location,
        st)

/-! ### Spec-side definitions

These follow the wording of the specification/claims, to be compared with
the source-translated definitions above. -/

/-- The integer-promotion rule exactly as the spec states it: any integral
type of rank at most `Int`'s promotes to `Int` if `Int` can represent all
its values, else to unsigned `Int`; ranks above `Int` are unchanged. -/
def integer_promote_spec (t : CType) : CType :=
  if t.rank ≤ (CType.int true).rank then
    if (CType.int true).can_represent t then .int true else .int false
  else t

/-- The usual-arithmetic-conversion algorithm exactly as the claim states
it: either `Double` gives `Double`; else either `Float` gives `Float`; else
both sides are integer-promoted; matching promoted signs pick the
higher-rank type; differing signs pick the signed type S when S can
represent all values of the unsigned type U, else U. -/
def binary_promote_spec (t1 t2 : CType) : Option CType :=
  if t1 = .double ∨ t2 = .double then some .double
  else if t1 = .float ∨ t2 = .float then some .float
  else
    let p1 := integer_promote_spec t1
    let p2 := integer_promote_spec t2
    match p1.sign, p2.sign with
    | some s1, some s2 =>
      if s1 = s2 then some (if p2.rank ≤ p1.rank then p1 else p2)
      else if s1 then some (if p1.can_represent p2 then p1 else p2)
      else some (if p2.can_represent p1 then p2 else p1)
    | _, _ => none

/-- The relational-operand condition as the claim words it: after decay,
the operands have equal pointer types, or — for `==`/`!=` only — one side
is a void pointer or null-pointer constant and the other is any pointer. -/
def relationalOk (token : ComparisonToken) (l r : Expr) : Bool :=
  (l.ctype.is_pointer && l.ctype == r.ctype)
  || ((token == .equalEqual || token == .notEqual)
      && (((l.ctype.is_void_pointer || l.is_null) && r.ctype.is_pointer)
        || ((r.ctype.is_void_pointer || r.is_null) && l.ctype.is_pointer)))

/-- The twelve arithmetic types of the model. -/
def arithTypes : List CType :=
  [.bool, .char true, .char false, .short true, .short false,
   .int true, .int false, .long true, .long false, .float, .double]

/-! ### Concrete fixtures used by counterexamples and witnesses -/

/-- A concrete source span. -/
def loc0 : Location := ⟨0, 0⟩

/-- An analyzer with an empty scope and no diagnostics. -/
def st0 : Analyzer := { scope := [], errors := [] }

/-- A concrete `int*` type. -/
def intPtr : CType := .pointer (.int true) Qualifiers.NONE

/-- Metadata for a pointer-valued symbol `f`. -/
def fMeta : Metadata :=
  { id := "f", ctype := intPtr, qualifiers := Qualifiers.NONE,
    storage_class := .auto }

/-- A typed lvalue standing for `*f()`: a dereference of a side-effecting
pointer-valued sub-expression (the call payload is represented by the `f`
identifier node, which is all the occurrence count inspects). -/
def derefF : Expr :=
  .mk (.deref (.mk (.id fMeta) intPtr false loc0)) (.int true) true loc0

/-- The typed literal `1`. -/
def one : Expr := literal (.int 1) loc0

/-- A void-pointer-typed lvalue `p`. -/
def voidPtrExpr : Expr :=
  .mk (.id ⟨"p", .pointer .void Qualifiers.NONE, Qualifiers.NONE, .auto⟩)
    (.pointer .void Qualifiers.NONE) true loc0

/-- An `int*`-typed lvalue `a`. -/
def ptrA : Expr := .mk (.id ⟨"a", intPtr, Qualifiers.NONE, .auto⟩) intPtr true loc0

/-- An analyzer whose scope binds `t` as a typedef name. -/
def tMeta : Metadata :=
  { id := "t", ctype := .int true, qualifiers := Qualifiers.NONE,
    storage_class := .typedef }

/-- Analyzer fixture with the typedef binding in scope. -/
def stTypedef : Analyzer := { scope := [[("t", tMeta)]], errors := [] }

/-! ### Helper lemmas -/

/-- A type is arithmetic exactly when it is one of the twelve arithmetic
types. -/
theorem mem_arithTypes (t : CType) : t.is_arithmetic = true ↔ t ∈ arithTypes := by
  cases t <;>
    simp [CType.is_arithmetic, CType.is_integral, CType.is_floating,
      arithTypes]

/-- On arithmetic operands `Type::binary_promote` never panics. -/
theorem binary_promote_isSome (t1 t2 : CType)
    (h1 : t1.is_arithmetic = true) (h2 : t2.is_arithmetic = true) :
    (CType.binary_promote t1 t2).isSome = true := by
  have key : ∀ a ∈ arithTypes, ∀ b ∈ arithTypes,
      (CType.binary_promote a b).isSome = true := by decide
  exact key t1 ((mem_arithTypes t1).1 h1) t2 ((mem_arithTypes t2).1 h2)

/-- Decay never returns an lvalue. -/
theorem rval_lval (e : Expr) : e.rval.lval = false := by
  cases e with
  | mk ex ct lv loc => cases ct <;> cases lv <;> rfl

/-- Decay does not change the type of an arithmetic expression. -/
theorem rval_ctype_of_arith (e : Expr) (h : e.ctype.is_arithmetic = true) :
    e.rval.ctype = e.ctype := by
  cases e with
  | mk ex ct lv loc =>
    cases ct <;>
      first
        | (cases lv <;> rfl)
        | (simp [Expr.ctype, CType.is_arithmetic, CType.is_integral,
            CType.is_floating] at h)

/-- `implicit_cast` preserves non-lvalueness. -/
theorem implicit_cast_lval (e : Expr) (t : CType) (eh : List SemanticError)
    (h : e.lval = false) : (e.implicit_cast t eh).1.lval = false := by
  unfold Expr.implicit_cast
  split
  · exact h
  · split
    · rfl
    · split
      · exact h
      · split
        · exact h
        · exact h

/-- The source's inline relational condition agrees with the claim-worded
`relationalOk`. -/
theorem relationalCondition_eq (token : ComparisonToken) (l r : Expr) :
    relationalCondition token l r = relationalOk token l r := by
  unfold relationalCondition relationalOk
  cases l.ctype.is_pointer <;> cases r.ctype.is_pointer <;>
    cases l.ctype.is_void_pointer <;> cases r.ctype.is_void_pointer <;>
    cases l.is_null <;> cases r.is_null <;>
    cases l.ctype == r.ctype <;>
    cases token == ComparisonToken.equalEqual <;>
    cases token == ComparisonToken.notEqual <;> rfl

/-- A void or char pointer is a pointer and is not arithmetic. -/
theorem void_or_char_pointer_shape (t : CType)
    (h : t.is_void_pointer = true ∨ t.is_char_pointer = true) :
    t.is_pointer = true ∧ t.is_arithmetic = false ∧ t ≠ .error := by
  cases t <;>
    simp_all [CType.is_void_pointer, CType.is_char_pointer, CType.is_pointer,
      CType.is_arithmetic, CType.is_integral, CType.is_floating]

/-- A pointer type is neither arithmetic nor `Bool`. -/
theorem pointer_shape (t : CType) (h : t.is_pointer = true) :
    t.is_arithmetic = false ∧ t.is_bool = false := by
  cases t <;> simp_all [CType.is_pointer, CType.is_bool, CType.is_arithmetic,
    CType.is_integral, CType.is_floating]

/-- A pointer-to-complete-object type is neither integral nor arithmetic. -/
theorem ptco_shape (t : CType) (h : t.is_pointer_to_complete_object = true) :
    t.is_integral = false ∧ t.is_arithmetic = false := by
  cases t <;> simp_all [CType.is_pointer_to_complete_object,
    CType.is_integral, CType.is_arithmetic, CType.is_floating]

/-- The pointer-arithmetic arms of `add` never fire when the index side is
not integral. -/
theorem pointerOperandCase_none (l i : CType) (h : i.is_integral = false) :
    pointerOperandCase l i = none := by
  cases l <;> simp [pointerOperandCase, h]

/-! ### Claim theorems -/

/-- Claim C9: the literal-typing function assigns character constants type
signed char, unsuffixed integer constants signed `Long`, unsigned-marked
integer constants unsigned `Long`, floating constants `Double`, and string
constants a fixed-size array of signed char whose length equals the content
length; the resulting node always has `lval = false`. -/
theorem literal_typing (lit : Literal) (loc : Location) :
    (literal lit loc).lval = false ∧
    (literal lit loc).ctype =
      (match lit with
       | .char _ => CType.char true
       | .int _ => CType.long true
       | .unsignedInt _ => CType.long false
       | .float _ => CType.double
       | .str s => CType.array (.char true) (.fixed s.length)) := by
  cases lit <;> exact ⟨rfl, rfl⟩

/-- Claim C5: decay (the `rval` conversion) is idempotent — for every typed
expression `e`, `rval (rval e) = rval e`. -/
theorem rval_idempotent (e : Expr) : e.rval.rval = e.rval := by
  cases e with
  | mk ex ct lv loc => cases ct <;> cases lv <;> rfl

/-- Claim C10: `rval` always returns a non-lvalue, and both expressions
returned by `Expr::binary_promote` are non-lvalues; hence the assertion in
`relational_expr` that neither final operand is an lvalue can never fail. -/
theorem rval_promote_not_lval :
    (∀ e : Expr, e.rval.lval = false) ∧
    (∀ (l r : Expr) (eh : List SemanticError) (l2 r2 : Expr)
        (eh2 : List SemanticError),
      Expr.binary_promote l r eh = some (l2, r2, eh2) →
        l2.lval = false ∧ r2.lval = false) := by
  refine ⟨rval_lval, ?_⟩
  intro l r eh l2 r2 eh2 h
  simp only [Expr.binary_promote] at h
  cases hbp : CType.binary_promote l.rval.ctype r.rval.ctype with
  | none => rw [hbp] at h; exact absurd h (by simp)
  | some ct =>
    rw [hbp] at h
    simp only [Option.some.injEq, Prod.mk.injEq] at h
    obtain ⟨h1, h2, _⟩ := h
    subst h1 h2
    exact ⟨implicit_cast_lval _ _ _ (rval_lval l),
      implicit_cast_lval _ _ _ (rval_lval r)⟩

/-- Witness for C10 at concrete inputs. -/
theorem rval_promote_not_lval_witness :
    (Expr.zero loc0).rval.lval = false ∧
      (one.lval = false ∧ one.lval = false) :=
  ⟨rval_promote_not_lval.1 (Expr.zero loc0),
   rval_promote_not_lval.2 one one [] one one [] rfl⟩

/-- Claim C3: for arithmetic types, `Type::binary_promote` follows exactly
the algorithm the spec states (spelled out in `binary_promote_spec`):
either `Double` gives `Double`, else either `Float` gives `Float`, else
both sides are integer-promoted and the sign/rank tie-breaks pick the
result. -/
theorem binary_promote_follows_spec (t1 t2 : CType)
    (h1 : t1.is_arithmetic = true) (h2 : t2.is_arithmetic = true) :
    CType.binary_promote t1 t2 = binary_promote_spec t1 t2 := by
  have key : ∀ a ∈ arithTypes, ∀ b ∈ arithTypes,
      CType.binary_promote a b = binary_promote_spec a b := by decide
  exact key t1 ((mem_arithTypes t1).1 h1) t2 ((mem_arithTypes t2).1 h2)

/-- Witness for C3 at a concrete pair. -/
theorem binary_promote_follows_spec_witness :
    CType.binary_promote (.int true) (.long false) =
      binary_promote_spec (.int true) (.long false) :=
  binary_promote_follows_spec (.int true) (.long false) rfl rfl

/-- Claim C4: `Type::binary_promote` is commutative on arithmetic types. -/
theorem binary_promote_comm (t1 t2 : CType)
    (h1 : t1.is_arithmetic = true) (h2 : t2.is_arithmetic = true) :
    CType.binary_promote t1 t2 = CType.binary_promote t2 t1 := by
  have key : ∀ a ∈ arithTypes, ∀ b ∈ arithTypes,
      CType.binary_promote a b = CType.binary_promote b a := by decide
  exact key t1 ((mem_arithTypes t1).1 h1) t2 ((mem_arithTypes t2).1 h2)

/-- Witness for C4 at a concrete pair. -/
theorem binary_promote_comm_witness :
    CType.binary_promote (.long true) (.int false) =
      CType.binary_promote (.int false) (.long true) :=
  binary_promote_comm (.long true) (.int false) rfl rfl

/-- Claim C1 (code bug): lowering the compound assignment `*f() += 1`
(modelled by the typed lvalue `derefF` whose payload contains the
side-effecting sub-expression `f`) produces a tree that contains the
side-effecting sub-expression TWICE, not once: `assignment_expr` clones the
whole `tmp = *f()` sub-expression into the operand of the binary operator,
so the tree is `(tmp = *f()) = ((tmp = *f()) + 1)`.  The two references to
the temporary are present as the claim states, but the left-hand side — and
hence its side effect — is duplicated, contradicting the claim and the
source's own comment that `f()` should only be called once. -/
theorem compound_assignment_duplicates_lhs :
    (st0.assignment_expr derefF one .addEqual loc0).map
        (fun p => (p.1.countId "f", p.1.countId "tmp")) = some (2, 2) := by
  rfl

/-- Claim C2 counterexample: for the null-pointer-constant literal `0`
(type signed `Int`) and the pointer target `int*` — a source/target pair
the claim covers — `implicit_cast` DOES insert a `Cast` node; it does not
return the same expression with only the `ctype` rewritten. -/
theorem implicit_cast_null_inserts_cast :
    ((Expr.zero loc0).implicit_cast intPtr []).1 =
        Expr.mk (.cast (Expr.zero loc0)) intPtr false loc0 ∧
    ((Expr.zero loc0).implicit_cast intPtr []).1 ≠
        Expr.mk (Expr.zero loc0).expr intPtr (Expr.zero loc0).lval
          (Expr.zero loc0).location := by
  refine ⟨rfl, ?_⟩
  intro hcontra
  have h2 : Expr.mk (.cast (Expr.zero loc0)) intPtr false loc0 =
      Expr.mk (Expr.zero loc0).expr intPtr (Expr.zero loc0).lval
        (Expr.zero loc0).location := hcontra
  simp [Expr.zero, Expr.expr, Expr.lval, Expr.location] at h2

/-- Claim C2 amended: the in-place retyping happens for void-pointer and
char-pointer sources that are not null-pointer-constant literals, with a
pointer target different from the source type that is itself neither a void
pointer nor a char pointer; `implicit_cast` then succeeds with no
diagnostic and no new node, returning the same expression with its `ctype`
rewritten to the target.  (Null-pointer constants with a pointer target,
and void/char-pointer targets, take the earlier cast-inserting branch
instead, as the counterexample shows.) -/
theorem implicit_cast_retype_in_place (e : Expr) (t : CType)
    (eh : List SemanticError)
    (hsrc : e.ctype.is_void_pointer = true ∨ e.ctype.is_char_pointer = true)
    (hnull : e.is_null = false)
    (htgt : t.is_pointer = true)
    (hne : e.ctype ≠ t)
    (hv : t.is_void_pointer = false)
    (hc : t.is_char_pointer = false) :
    e.implicit_cast t eh = (Expr.mk e.expr t e.lval e.location, eh) := by
  obtain ⟨hp, hna, _⟩ := void_or_char_pointer_shape e.ctype hsrc
  obtain ⟨_, hb⟩ := pointer_shape t htgt
  unfold Expr.implicit_cast
  rw [if_neg hne]
  have hcond2 : (e.ctype.is_arithmetic && t.is_arithmetic
      || e.is_null && t.is_pointer
      || e.ctype.is_pointer && t.is_bool
      || e.ctype.is_pointer && t.is_void_pointer
      || e.ctype.is_pointer && t.is_char_pointer) = false := by
    rw [hna, hnull, hb, hv, hc]
    simp
  rw [hcond2]
  have hcond3 : (t.is_pointer
      && (e.is_null || e.ctype.is_void_pointer || e.ctype.is_char_pointer))
      = true := by
    rcases hsrc with h | h <;> simp [htgt, h]
  rw [hcond3]
  simp

/-- Witness for the amended C2 at a concrete input: a void-pointer lvalue
retyped in place to `int*`. -/
theorem implicit_cast_retype_in_place_witness :
    voidPtrExpr.implicit_cast intPtr [] =
      (Expr.mk voidPtrExpr.expr intPtr voidPtrExpr.lval voidPtrExpr.location,
        []) :=
  implicit_cast_retype_in_place voidPtrExpr intPtr [] (Or.inl rfl) rfl rfl
    (by decide) rfl rfl

/-- Claim C7: an undeclared name reports exactly one `UndeclaredVar`
diagnostic and yields the signed-`Int` literal-zero placeholder with
`lval = false`; a name bound with typedef storage class reports
`TypedefInExpressionContext` and yields the same zero placeholder. -/
theorem parse_id_error_recovery (st : Analyzer) (name : String)
    (loc : Location) :
    (st.scope.get name = none →
      st.parse_id name loc =
        (Expr.mk (.literal (.int 0)) (.int true) false loc,
          { st with errors := st.errors ++ [.undeclaredVar name] })) ∧
    (∀ m, st.scope.get name = some m → m.storage_class = .typedef →
      st.parse_id name loc =
        (Expr.mk (.literal (.int 0)) (.int true) false loc,
          { st with errors := st.errors ++ [.typedefInExpressionContext] })) := by
  constructor
  · intro h
    unfold Analyzer.parse_id
    rw [h]
    simp [Expr.zero, Analyzer.err]
  · intro m h hm
    unfold Analyzer.parse_id
    rw [h]
    simp [hm, Expr.zero, Analyzer.err]

/-- Witness for C7: an empty scope (undeclared `x`) and a scope binding `t`
as a typedef name. -/
theorem parse_id_error_recovery_witness :
    st0.parse_id "x" loc0 =
      (Expr.mk (.literal (.int 0)) (.int true) false loc0,
        { st0 with errors := st0.errors ++ [.undeclaredVar "x"] }) ∧
    stTypedef.parse_id "t" loc0 =
      (Expr.mk (.literal (.int 0)) (.int true) false loc0,
        { stTypedef with errors :=
            stTypedef.errors ++ [.typedefInExpressionContext] }) :=
  ⟨(parse_id_error_recovery st0 "x" loc0).1 rfl,
   (parse_id_error_recovery stTypedef "t" loc0).2 tMeta rfl rfl⟩

/-- Claim C8: subtraction of two operands with identical
pointer-to-complete-object types (necessarily not both arithmetic) yields a
node with that same type and `lval = true`, with no diagnostic. -/
theorem pointer_sub_type_lval (st : Analyzer) (l r : Expr)
    (heq : l.ctype = r.ctype)
    (hp : l.ctype.is_pointer_to_complete_object = true)
    (_hna : ¬(l.ctype.is_arithmetic = true ∧ r.ctype.is_arithmetic = true)) :
    st.add l r .sub =
      some (.mk (.binary .sub l r) l.ctype true (l.location.merge r.location),
        st) := by
  obtain ⟨hint, harith⟩ := ptco_shape l.ctype hp
  have hint_r : r.ctype.is_integral = false := by rw [← heq]; exact hint
  have harith_r : r.ctype.is_arithmetic = false := by rw [← heq]; exact harith
  have hp_r : r.ctype.is_pointer_to_complete_object = true := by
    rw [← heq]; exact hp
  simp only [Analyzer.add]
  rw [pointerOperandCase_none l.ctype r.ctype hint_r]
  simp [harith, hp, heq, harith_r, hp_r]

/-- Witness for C8: `a - a` for an `int*` lvalue `a`. -/
theorem pointer_sub_type_lval_witness :
    st0.add ptrA ptrA .sub =
      some (.mk (.binary .sub ptrA ptrA) ptrA.ctype true
          (ptrA.location.merge ptrA.location), st0) :=
  pointer_sub_type_lval st0 ptrA ptrA rfl rfl (by decide)

/-- Claim C6: every relational/equality lowering yields a node of type
`Bool` with `lval = false`; and when the operands are not both arithmetic,
an `InvalidRelationalType` diagnostic is appended if and only if the
decayed operands fail the claim's pointer-compatibility condition
(`relationalOk`): equal pointer types, or — for `==`/`!=` only — one side a
void pointer or null-pointer constant and the other any pointer. -/
theorem relational_expr_spec (st : Analyzer) (l r : Expr)
    (tok : ComparisonToken) :
    (∃ e st2, st.relational_expr l r tok = some (e, st2) ∧
        e.ctype = .bool ∧ e.lval = false) ∧
    (¬(l.ctype.is_arithmetic = true ∧ r.ctype.is_arithmetic = true) →
      st.relational_expr l r tok =
        some (.mk (.binary (.compare tok) l.rval r.rval) .bool false
            (l.location.merge r.location),
          { st with errors := st.errors ++
              (if relationalOk tok l.rval r.rval then []
               else [.invalidRelationalType tok l.rval.ctype
                   r.rval.ctype]) })) := by
  have hB : ¬(l.ctype.is_arithmetic = true ∧ r.ctype.is_arithmetic = true) →
      st.relational_expr l r tok =
        some (.mk (.binary (.compare tok) l.rval r.rval) .bool false
            (l.location.merge r.location),
          { st with errors := st.errors ++
              (if relationalOk tok l.rval r.rval then []
               else [.invalidRelationalType tok l.rval.ctype
                   r.rval.ctype]) }) := by
    intro hna
    have hcond : (l.ctype.is_arithmetic && r.ctype.is_arithmetic) = false := by
      cases ha : l.ctype.is_arithmetic <;>
        cases hb : r.ctype.is_arithmetic <;> simp_all
    simp only [Analyzer.relational_expr, hcond, Bool.false_eq_true,
      if_false, relationalCondition_eq]
    by_cases hok : relationalOk tok l.rval r.rval = true
    · simp [hok, Analyzer.err]
    · have hokf : relationalOk tok l.rval r.rval = false :=
        Bool.eq_false_iff.2 hok
      simp [hokf, Analyzer.err]
  refine ⟨?_, hB⟩
  by_cases h : (l.ctype.is_arithmetic && r.ctype.is_arithmetic) = true
  · have h12 := h
    rw [Bool.and_eq_true] at h12
    obtain ⟨h1, h2⟩ := h12
    have harith :
        (CType.binary_promote (l.rval).ctype (r.rval).ctype).isSome = true := by
      rw [rval_ctype_of_arith l h1, rval_ctype_of_arith r h2]
      exact binary_promote_isSome _ _ h1 h2
    obtain ⟨ct, hct⟩ := Option.isSome_iff_exists.1 harith
    have hsome : st.relational_expr l r tok =
        some (Expr.mk (.binary (.compare tok)
            ((l.rval).implicit_cast ct st.errors).1
            ((r.rval).implicit_cast ct
              ((l.rval).implicit_cast ct st.errors).2).1)
          .bool false (l.location.merge r.location),
          { st with errors := ((r.rval).implicit_cast ct
              ((l.rval).implicit_cast ct st.errors).2).2 }) := by
      simp only [Analyzer.relational_expr, h, if_true, Expr.binary_promote,
        hct]
    exact ⟨_, _, hsome, rfl, rfl⟩
  · have hna : ¬(l.ctype.is_arithmetic = true ∧ r.ctype.is_arithmetic = true) := by
      simpa [Bool.and_eq_true] using h
    exact ⟨_, _, hB hna, rfl, rfl⟩

/-- Witness for C6 at concrete non-arithmetic operands: comparing the
`int*` lvalue `a` with itself under `<`. -/
theorem relational_expr_spec_witness :
    st0.relational_expr ptrA ptrA .less =
      some (.mk (.binary (.compare .less) ptrA.rval ptrA.rval) .bool false
          (ptrA.location.merge ptrA.location),
        { st0 with errors := st0.errors ++
            (if relationalOk .less ptrA.rval ptrA.rval then []
             else [.invalidRelationalType .less ptrA.rval.ctype
                 ptrA.rval.ctype]) }) :=
  (relational_expr_spec st0 ptrA ptrA .less).2 (by decide)
